import Mathlib

/-!
Verification of the function-management core of the laf serverless platform
(`src/server/src/function/function.controller.ts`).

The controller (`FunctionController`) is embedded directly from the source.
The services it calls (`FunctionService`, `BundleService`, the artifact
compiler) are not part of the available sources; those are modelled from the
specification, and each such definition is marked `Modelled from the spec:`
in its doc comment.
-/

namespace Laf

/-- Resource limits attached to an application's subscribed bundle.  The
source reads `bundle?.resource?.limitCountOfCloudFunction`, so both the
`resource` object and the limit field may be absent; absence is modelled with
`Option`. -/
structure BundleResource where
  limitCountOfCloudFunction : Option Nat
  deriving DecidableEq, Repr

/-- An application's subscribed resource bundle (`bundle.resource` may be
absent). -/
structure Bundle where
  resource : Option BundleResource
  deriving DecidableEq, Repr

/-- A cloud function record: scoped to one application by `appid`, named,
holding source text, a version counter, an optional reference to the latest
compiled artifact (by version), and a soft-deletion flag. -/
structure CloudFunction where
  appid : String
  name : String
  code : String
  version : Nat
  currentArtifact : Option Nat
  deleted : Bool
  deriving DecidableEq, Repr

/-- The persistent store visible to the controller: the function records and
the per-application resource bundles. -/
structure ServerState where
  functions : List CloudFunction
  bundles : List (String × Bundle)
  deriving DecidableEq, Repr

/-- A record is the live (non-deleted) function named `name` of application
`appid`. -/
def isLive (appid name : String) (f : CloudFunction) : Bool :=
  f.appid == appid && f.name == name && !f.deleted

/-- Modelled from the spec: `FunctionService.findOne(appid, name)` looks up
the live function with the given application id and name. -/
def findOne (s : ServerState) (appid name : String) : Option CloudFunction :=
  s.functions.find? (isLive appid name)

/-- Modelled from the spec: `FunctionService.count(appid)` is the
`UsageCounter`, the number of active (non-deleted) functions of the
application. -/
def countApp (s : ServerState) (appid : String) : Nat :=
  (s.functions.filter (fun f => f.appid == appid && !f.deleted)).length

/-- Modelled from the spec: `BundleService.findApplicationBundle(appid)`
returns the application's subscribed resource bundle, if any. -/
def findApplicationBundle (s : ServerState) (appid : String) : Option Bundle :=
  (s.bundles.find? (fun p => p.1 == appid)).map Prod.snd

/-- `bundle?.resource?.limitCountOfCloudFunction || 0` from the source: the
effective function-count limit, `0` whenever the bundle, its resource object
or the limit field is absent (and also when the stored limit is `0`, since
`0 || 0 = 0` in JavaScript). -/
def maxFunctionCount (bundle : Option Bundle) : Nat :=
  (((bundle.bind Bundle.resource).bind
      BundleResource.limitCountOfCloudFunction).getD 0)

/-- The user-facing error messages produced by the controller, one
constructor per `i18n` key, carrying exactly the `args` the source passes to
`i18n.t`. -/
inductive ErrMsg where
  | validationError (msg : String)
  | nameExist (name : String)
  | maxCount (count : Nat)
  | createError
  | updateError
  | deleteError
  | notFound (name : String)
  | codeRequired
  deriving DecidableEq, Repr

/-- A controller response: `ResponseUtil.ok(data)`, `ResponseUtil.error(msg)`
or a thrown `HttpException(msg, status)`. -/
inductive Resp (α : Type) where
  | ok (data : α)
  | error (msg : ErrMsg)
  | httpError (status : Nat) (msg : ErrMsg)
  deriving DecidableEq, Repr

/-- The body of a create request.  Input-validation DTOs are outside the
covered core, so `dto.validate()` is modelled as an abstract pre-computed
result carried by the request. -/
structure CreateFunctionDto where
  name : String
  code : String
  validateErr : Option String
  deriving DecidableEq, Repr

/-- The function record a successful create persists: version `0`, no
artifact, not deleted. -/
def newFunction (appid : String) (dto : CreateFunctionDto) : CloudFunction :=
  { appid := appid, name := dto.name, code := dto.code, version := 0,
    currentArtifact := none, deleted := false }

/-- Modelled from the spec: `FunctionService.create` persists the Function
with version 0 and no artifact, and returns it. -/
def serviceCreate (s : ServerState) (appid : String)
    (dto : CreateFunctionDto) : CloudFunction × ServerState :=
  let f := newFunction appid dto
  (f, { s with functions := s.functions ++ [f] })

/-- `FunctionController.create` from the source: validate the dto, reject a
duplicate name, read the bundle limit and the current count, deny when
`count >= MAX_FUNCTION_COUNT`, otherwise persist and return the new
function. -/
def createFn (s : ServerState) (appid : String) (dto : CreateFunctionDto) :
    Resp CloudFunction × ServerState :=
  match dto.validateErr with
  | some e => (.error (.validationError e), s)
  | none =>
    match findOne s appid dto.name with
    | some _ => (.error (.nameExist dto.name), s)
    | none =>
      let maxFn := maxFunctionCount (findApplicationBundle s appid)
      let cnt := countApp s appid
      if maxFn ≤ cnt then
        (.error (.maxCount maxFn), s)
      else
        let r := serviceCreate s appid dto
        (.ok r.1, r.2)

/-- Modelled from the spec: `FunctionService.remove` soft-deletes the
function record and returns the removed record. -/
def serviceRemove (s : ServerState) (func : CloudFunction) :
    CloudFunction × ServerState :=
  ({ func with deleted := true },
   { s with functions :=
      s.functions.map (fun f =>
        if f = func then { f with deleted := true } else f) })

/-- `FunctionController.remove` from the source: look up the live function,
throw a 404 `HttpException` when it is absent, otherwise remove it. -/
def removeFn (s : ServerState) (appid name : String) :
    Resp CloudFunction × ServerState :=
  match findOne s appid name with
  | none => (.httpError 404 (.notFound name), s)
  | some func =>
    let r := serviceRemove s func
    (.ok r.1, r.2)

/-- A failed compilation: reason and diagnostics, per the Artifact Compiler
contract. -/
structure CompileError where
  reason : String
  diagnostics : String
  deriving DecidableEq, Repr

/-- An immutable compiled bundle keyed by function and version, with a
content hash for integrity. -/
structure Artifact where
  appid : String
  functionName : String
  version : Nat
  hash : Nat
  compiled : String
  deriving DecidableEq, Repr

/-- Outcome of the Artifact Compiler: an artifact or a compile error. -/
inductive CompileOut where
  | made (a : Artifact)
  | failed (e : CompileError)
  deriving DecidableEq, Repr

/-- Modelled from the spec: the deterministic content hash of an artifact,
computed from the source text alone. -/
def contentHash (source : String) : Nat :=
  source.foldl (fun h c => (h * 31 + c.toNat) % 1000000007) 7

/-- Modelled from the spec: the compiler's source-size limit. -/
def MAX_SOURCE_SIZE : Nat := 1048576

/-- Modelled from the spec: `compile(function, sourceCode) -> Artifact |
CompileError` — validates syntax (through the supplied checker `codeCheck`,
which returns diagnostics on a syntax failure) and size limits, and produces
an artifact with a deterministic content hash. -/
def artifactCompile (codeCheck : String → Option String)
    (func : CloudFunction) (source : String) : CompileOut :=
  match codeCheck source with
  | some d => .failed { reason := "SyntaxError", diagnostics := d }
  | none =>
    if MAX_SOURCE_SIZE < source.length then
      .failed { reason := "SizeLimitExceeded", diagnostics := "" }
    else
      .made { appid := func.appid, functionName := func.name,
              version := func.version + 1, hash := contentHash source,
              compiled := source }

/-- The record update performed by a successful compile: the Function's
`currentArtifact` is pointed at the new artifact. -/
def setCurrentArtifact (s : ServerState) (func : CloudFunction)
    (a : Artifact) : ServerState :=
  { s with functions :=
      s.functions.map (fun f =>
        if f = func then
          { f with currentArtifact := some a.version, version := a.version }
        else f) }

/-- Modelled from the spec: `FunctionService.compile` delegates to the
Artifact Compiler, then sets `Function.currentArtifact` to the new artifact;
on compiler failure the Function is left unchanged. -/
def serviceCompile (codeCheck : String → Option String) (s : ServerState)
    (func : CloudFunction) (source : String) : CompileOut × ServerState :=
  match artifactCompile codeCheck func source with
  | .failed e => (.failed e, s)
  | .made a => (.made a, setCurrentArtifact s func a)

/-- The body of a compile request; `dto.code` may be absent, and `!dto.code`
in the source is true for an absent or empty string. -/
structure CompileFunctionDto where
  code : Option String
  deriving DecidableEq, Repr

/-- JavaScript falsiness of `dto.code`: absent or empty. -/
def isFalsyCode : Option String → Bool
  | none => true
  | some c => c == ""

/-- `FunctionController.compile` from the source: reject an absent or empty
code body first, then throw a 404 `HttpException` when the function is
absent, otherwise call the service and wrap whatever it returns in
`ResponseUtil.ok` — the source has no failure branch on the service
result. -/
def compileFn (codeCheck : String → Option String) (s : ServerState)
    (appid name : String) (dto : CompileFunctionDto) :
    Resp CompileOut × ServerState :=
  if isFalsyCode dto.code then
    (.error .codeRequired, s)
  else
    match findOne s appid name with
    | none => (.httpError 404 (.notFound name), s)
    | some func =>
      let r := serviceCompile codeCheck s func (dto.code.getD "")
      (.ok r.1, r.2)

/-!
Interleaving model of concurrent `create` calls.  Each `await` in the
controller is a yield point; the decisive one is between the usage-count
read and the insert, so a call is split into the phases `init` (about to
perform the validation, duplicate-name and count reads), `counted` (count
read, limit comparison and write pending) and `finished`.
-/

/-- Program counter of one in-flight `create` call. -/
inductive Phase where
  | init
  | counted (cnt : Nat)
  | finished (r : Resp CloudFunction)
  deriving DecidableEq, Repr

/-- One scheduler step of an in-flight `create` call against the shared
store, following `FunctionController.create` line by line. -/
def stepCreate (appid : String) (dto : CreateFunctionDto)
    (s : ServerState) : Phase → Phase × ServerState
  | .init =>
    match dto.validateErr with
    | some e => (.finished (.error (.validationError e)), s)
    | none =>
      match findOne s appid dto.name with
      | some _ => (.finished (.error (.nameExist dto.name)), s)
      | none => (.counted (countApp s appid), s)
  | .counted cnt =>
    let maxFn := maxFunctionCount (findApplicationBundle s appid)
    if maxFn ≤ cnt then
      (.finished (.error (.maxCount maxFn)), s)
    else
      let r := serviceCreate s appid dto
      (.finished (.ok r.1), r.2)
  | .finished r => (.finished r, s)

/-- Shared store plus the phases of two concurrent `create` calls. -/
structure RaceState where
  store : ServerState
  a : Phase
  b : Phase
  deriving DecidableEq, Repr

/-- Run one scheduler choice: `true` steps call A, `false` steps call B. -/
def raceStep (appid : String) (dtoA dtoB : CreateFunctionDto)
    (rs : RaceState) (pickA : Bool) : RaceState :=
  if pickA then
    let r := stepCreate appid dtoA rs.store rs.a
    { rs with store := r.2, a := r.1 }
  else
    let r := stepCreate appid dtoB rs.store rs.b
    { rs with store := r.2, b := r.1 }

/-- Run a whole schedule of choices. -/
def raceRun (appid : String) (dtoA dtoB : CreateFunctionDto)
    (rs : RaceState) : List Bool → RaceState
  | [] => rs
  | c :: cs => raceRun appid dtoA dtoB (raceStep appid dtoA dtoB rs c) cs

/-!
Concrete fixtures used by the witnesses and counterexamples below.
-/

/-- A bundle whose function-count limit is `2`. -/
def limit2Bundle : Bundle :=
  { resource := some { limitCountOfCloudFunction := some 2 } }

/-- A valid create request for a function named `n`. -/
def plainDto (n : String) : CreateFunctionDto :=
  { name := n, code := "code", validateErr := none }

/-- Application `A` with limit `2` and no functions yet. -/
def c1S0 : ServerState := { functions := [], bundles := [("A", limit2Bundle)] }

/-- The store after creating `f1` in `c1S0`. -/
def c1S1 : ServerState := (createFn c1S0 "A" (plainDto "f1")).2

/-- The store after creating `f2` in `c1S1`. -/
def c1S2 : ServerState := (createFn c1S1 "A" (plainDto "f2")).2

/-- A live function record named `n` of application `A`. -/
def liveFn (n : String) : CloudFunction :=
  { appid := "A", name := n, code := "code", version := 0,
    currentArtifact := none, deleted := false }

/-- Application `A` whose bundle allows no functions at all, with `f1`
already present. -/
def c2S : ServerState :=
  { functions := [liveFn "f1"],
    bundles := [("A", { resource := some { limitCountOfCloudFunction := some 0 } })] }

/-- A syntax checker that rejects exactly the source text `"syntax error"`.
Stands in for the compiler front end of the failing run. -/
def c3Check : String → Option String := fun src =>
  if src == "syntax error" then some "Unexpected token" else none

/-- Application `A` with one deployed function `f1` whose current artifact is
version `1`. -/
def c3State : ServerState :=
  { functions := [{ appid := "A", name := "f1", code := "old", version := 1,
                    currentArtifact := some 1, deleted := false }],
    bundles := [("A", limit2Bundle)] }

/-- The schedule of the over-admission run: both calls perform their count
read before either performs its write. -/
def c5Schedule : List Bool := [true, false, true, false]

/-- Two concurrent creates against application `A` whose limit is `1`,
starting from an empty store. -/
def c5Start : RaceState :=
  { store := { functions := [],
               bundles := [("A", { resource := some { limitCountOfCloudFunction := some 1 } })] },
    a := .init, b := .init }

/-- The final state of the over-admission run. -/
def c5Final : RaceState :=
  raceRun "A" (plainDto "f1") (plainDto "f2") c5Start c5Schedule

/-- Application `A` at limit `2` holding exactly 2 live functions. -/
def c6S2 : ServerState :=
  { functions := [liveFn "g1", liveFn "g2"], bundles := [("A", limit2Bundle)] }

/-- Application `A` at limit `2` holding 5 live functions. -/
def c6S5 : ServerState :=
  { functions := [liveFn "g1", liveFn "g2", liveFn "g3", liveFn "g4", liveFn "g5"],
    bundles := [("A", limit2Bundle)] }

/-- Application `A` with the single live function `f1`. -/
def c7S : ServerState := { functions := [liveFn "f1"], bundles := [("A", limit2Bundle)] }

/-- The store after the first successful deletion of `f1` from `c7S`. -/
def c7T : ServerState := (removeFn c7S "A" "f1").2

/-- A syntax checker that accepts every source. -/
def okCheck : String → Option String := fun _ => none

/-- The function compiled in the determinism witness. -/
def c8Func : CloudFunction := liveFn "f1"

/-- Two different stores holding `f1`: the second also holds `f2`. -/
def c8S1 : ServerState := { functions := [liveFn "f1"], bundles := [] }

/-- See `c8S1`. -/
def c8S2 : ServerState := { functions := [liveFn "f1", liveFn "f2"], bundles := [] }

/-- The artifact both compiles of `"let x = 1"` produce. -/
def c8Art : Artifact :=
  { appid := "A", functionName := "f1", version := 1,
    hash := contentHash "let x = 1", compiled := "let x = 1" }

/-!
Helper lemmas about the create pipeline, shared by the claim theorems.
-/

/-- A duplicate name short-circuits `create`: the name-exists error is
returned and the store is untouched, whatever the quota situation. -/
theorem createFn_dup (s : ServerState) (appid : String)
    (dto : CreateFunctionDto) (f₀ : CloudFunction)
    (hval : dto.validateErr = none)
    (hfound : findOne s appid dto.name = some f₀) :
    createFn s appid dto = (.error (.nameExist dto.name), s) := by
  simp [createFn, hval, hfound]

/-- Below the limit, `create` persists the new function and returns it. -/
theorem createFn_allow (s : ServerState) (appid : String)
    (dto : CreateFunctionDto)
    (hval : dto.validateErr = none)
    (hfree : findOne s appid dto.name = none)
    (hlt : countApp s appid < maxFunctionCount (findApplicationBundle s appid)) :
    createFn s appid dto =
      (.ok (newFunction appid dto),
       { s with functions := s.functions ++ [newFunction appid dto] }) := by
  simp [createFn, hval, hfree, serviceCreate, Nat.not_le.mpr hlt]

/-- At or above the limit, `create` is denied with the max-count error
carrying the limit, and the store is untouched. -/
theorem createFn_deny (s : ServerState) (appid : String)
    (dto : CreateFunctionDto)
    (hval : dto.validateErr = none)
    (hfree : findOne s appid dto.name = none)
    (hge : maxFunctionCount (findApplicationBundle s appid) ≤ countApp s appid) :
    createFn s appid dto =
      (.error (.maxCount (maxFunctionCount (findApplicationBundle s appid))), s) := by
  simp [createFn, hval, hfree, hge]

/-- A successful `create` implies the pre-state count was strictly below the
limit. -/
theorem createFn_ok_count_lt (s : ServerState) (appid : String)
    (dto : CreateFunctionDto) (f : CloudFunction) (t : ServerState)
    (h : createFn s appid dto = (.ok f, t)) :
    countApp s appid < maxFunctionCount (findApplicationBundle s appid) := by
  simp only [createFn] at h
  split at h
  · simp at h
  · split at h
    · simp at h
    · split at h
      · simp at h
      · omega

/-- Claim C1: for a validated request on a free name, `create` succeeds
exactly when the current function count is strictly below the bundle limit,
persisting the new function; at or above the limit it is denied with the
quota error; and any successful `create` implies the count was below the
limit. -/
theorem c1_create_respects_limit (s : ServerState) (appid : String)
    (dto : CreateFunctionDto)
    (hval : dto.validateErr = none)
    (hfree : findOne s appid dto.name = none) :
    (countApp s appid < maxFunctionCount (findApplicationBundle s appid) →
      createFn s appid dto =
        (.ok (newFunction appid dto),
         { s with functions := s.functions ++ [newFunction appid dto] })) ∧
    (maxFunctionCount (findApplicationBundle s appid) ≤ countApp s appid →
      createFn s appid dto =
        (.error (.maxCount (maxFunctionCount (findApplicationBundle s appid))), s)) ∧
    (∀ f t, createFn s appid dto = (.ok f, t) →
      countApp s appid < maxFunctionCount (findApplicationBundle s appid)) :=
  ⟨fun hlt => createFn_allow s appid dto hval hfree hlt,
   fun hge => createFn_deny s appid dto hval hfree hge,
   fun f t h => createFn_ok_count_lt s appid dto f t h⟩

/-- Claim C1 witness: with limit 2 and no existing functions, creating `f1`
and `f2` succeeds and creating `f3` is denied with the max-count error. -/
theorem c1_create_respects_limit_witness :
    (createFn c1S0 "A" (plainDto "f1")).1 = .ok (newFunction "A" (plainDto "f1")) ∧
    (createFn c1S1 "A" (plainDto "f2")).1 = .ok (newFunction "A" (plainDto "f2")) ∧
    createFn c1S2 "A" (plainDto "f3") = (.error (.maxCount 2), c1S2) ∧
    countApp c1S2 "A" = 2 := by
  refine ⟨?_, ?_, ?_, by decide⟩
  · exact congrArg Prod.fst
      ((c1_create_respects_limit c1S0 "A" (plainDto "f1") rfl (by decide)).1 (by decide))
  · exact congrArg Prod.fst
      ((c1_create_respects_limit c1S1 "A" (plainDto "f2") rfl (by decide)).1 (by decide))
  · exact (c1_create_respects_limit c1S2 "A" (plainDto "f3") rfl (by decide)).2.1 (by decide)

/-- Claim C2: on a validated request, a duplicate name makes `create` return
the name-exists error with the store untouched (so nothing is persisted and
the quota gate's outcome is irrelevant — this holds whatever the limit and
count are); only with the name free and the quota allowing is the function
persisted and returned. -/
theorem c2_duplicate_name_short_circuits (s : ServerState) (appid : String)
    (dto : CreateFunctionDto)
    (hval : dto.validateErr = none) :
    (∀ f₀, findOne s appid dto.name = some f₀ →
      createFn s appid dto = (.error (.nameExist dto.name), s)) ∧
    (findOne s appid dto.name = none →
      countApp s appid < maxFunctionCount (findApplicationBundle s appid) →
      createFn s appid dto =
        (.ok (newFunction appid dto),
         { s with functions := s.functions ++ [newFunction appid dto] })) :=
  ⟨fun f₀ hfound => createFn_dup s appid dto f₀ hval hfound,
   fun hfree hlt => createFn_allow s appid dto hval hfree hlt⟩

/-- Claim C2 witness: in a store where `f1` exists and the bundle limit is
`0` (so the quota gate would certainly deny), creating `f1` again returns the
name-exists error, not the quota error, and persists nothing. -/
theorem c2_duplicate_name_short_circuits_witness :
    createFn c2S "A" (plainDto "f1") = (.error (.nameExist "f1"), c2S) ∧
    maxFunctionCount (findApplicationBundle c2S "A") = 0 := by
  refine ⟨?_, by decide⟩
  exact (c2_duplicate_name_short_circuits c2S "A" (plainDto "f1") rfl).1
    (liveFn "f1") (by decide)

/-- Claim C6 counterexample: two stores with the same limit `2` but current
counts `2` and `5` produce byte-for-byte identical quota denials
(`maxCount 2`), so the denial carries the limit only — the current function
count cannot be recovered from it, contradicting the claim that the denial
carries both limit and current. -/
theorem c6_denial_lacks_current_count :
    countApp c6S2 "A" = 2 ∧ countApp c6S5 "A" = 5 ∧
    (createFn c6S2 "A" (plainDto "f9")).1 = .error (.maxCount 2) ∧
    (createFn c6S5 "A" (plainDto "f9")).1 = .error (.maxCount 2) ∧
    (createFn c6S2 "A" (plainDto "f9")).1 = (createFn c6S5 "A" (plainDto "f9")).1 := by
  decide

/-- Claim C6 as amended: whenever a validated create on a free name is denied
for quota, the denial carries the bundle's limit (the `maxCount` message
argument); the current function count is not part of the denial. -/
theorem c6_denial_carries_limit (s : ServerState) (appid : String)
    (dto : CreateFunctionDto)
    (hval : dto.validateErr = none)
    (hfree : findOne s appid dto.name = none)
    (hge : maxFunctionCount (findApplicationBundle s appid) ≤ countApp s appid) :
    createFn s appid dto =
      (.error (.maxCount (maxFunctionCount (findApplicationBundle s appid))), s) :=
  createFn_deny s appid dto hval hfree hge

/-- Claim C6 amended witness: at limit 2 with 5 live functions, the denial is
`maxCount 2`. -/
theorem c6_denial_carries_limit_witness :
    createFn c6S5 "A" (plainDto "f9") = (.error (.maxCount 2), c6S5) :=
  c6_denial_carries_limit c6S5 "A" (plainDto "f9") rfl (by decide) (by decide)

/-- Claim C9: when the application has no bundle, or the bundle has no
resource object, or the limit field is absent or zero, the effective limit is
`0` and every validated create on a free name — including the very first —
is denied with the max-count error carrying `0`. -/
theorem c9_absent_or_zero_limit_denies (s : ServerState) (appid : String)
    (dto : CreateFunctionDto)
    (hval : dto.validateErr = none)
    (hfree : findOne s appid dto.name = none)
    (hlim : findApplicationBundle s appid = none ∨
      ∃ b, findApplicationBundle s appid = some b ∧
        (b.resource = none ∨ ∃ r, b.resource = some r ∧
          (r.limitCountOfCloudFunction = none ∨
           r.limitCountOfCloudFunction = some 0))) :
    maxFunctionCount (findApplicationBundle s appid) = 0 ∧
    createFn s appid dto = (.error (.maxCount 0), s) := by
  have hmax : maxFunctionCount (findApplicationBundle s appid) = 0 := by
    rcases hlim with h | ⟨b, hb, h | ⟨r, hr, h | h⟩⟩ <;>
      simp [maxFunctionCount, *]
  refine ⟨hmax, ?_⟩
  have := createFn_deny s appid dto hval hfree (hmax ▸ Nat.zero_le _)
  rwa [hmax] at this

/-- Claim C9 witness: with no bundle recorded at all, the very first create
for the application is denied with `maxCount 0`. -/
theorem c9_absent_or_zero_limit_denies_witness :
    maxFunctionCount (findApplicationBundle { functions := [], bundles := [] } "A") = 0 ∧
    createFn { functions := [], bundles := [] } "A" (plainDto "f1") =
      (.error (.maxCount 0), { functions := [], bundles := [] }) :=
  c9_absent_or_zero_limit_denies { functions := [], bundles := [] } "A"
    (plainDto "f1") rfl rfl (Or.inl rfl)

/-- The soft-deleted copy of a record is never live. -/
theorem isLive_deleted (appid name : String) (f : CloudFunction) :
    isLive appid name { f with deleted := true } = false := by
  simp [isLive]

/-- Claim C7: deleting a function that is absent (never existed or already
soft-deleted, so `findOne` misses it) returns the 404 not-found error with
the store untouched; and after a successful deletion — in a store whose live
record for the name is unique — an immediate retry returns 404 and again
leaves the store untouched, so a deletion is never observed twice. -/
theorem c7_delete_idempotent (s : ServerState) (appid name : String)
    (huniq : ∀ g₁ ∈ s.functions, ∀ g₂ ∈ s.functions,
      isLive appid name g₁ = true → isLive appid name g₂ = true → g₁ = g₂) :
    (findOne s appid name = none →
      removeFn s appid name = (.httpError 404 (.notFound name), s)) ∧
    (∀ func t, removeFn s appid name = (.ok func, t) →
      removeFn t appid name = (.httpError 404 (.notFound name), t)) := by
  constructor
  · intro hnone
    simp [removeFn, hnone]
  · intro func t h
    simp only [removeFn] at h
    cases hf : findOne s appid name with
    | none => rw [hf] at h; simp at h
    | some f₀ =>
      rw [hf] at h
      simp only [serviceRemove, Prod.mk.injEq, Resp.ok.injEq] at h
      obtain ⟨-, ht⟩ := h
      have hmem : f₀ ∈ s.functions := List.mem_of_find?_eq_some hf
      have hlive : isLive appid name f₀ = true := List.find?_some hf
      have hnone : findOne t appid name = none := by
        rw [← ht]
        unfold findOne
        rw [List.find?_eq_none]
        intro x hx
        simp only [List.mem_map] at hx
        obtain ⟨g, hg, hgx⟩ := hx
        by_cases hgf : g = f₀
        · subst hgf
          rw [if_pos rfl] at hgx
          rw [← hgx]
          simp [isLive]
        · rw [if_neg hgf] at hgx
          rw [← hgx]
          intro hxl
          exact hgf (huniq g hg f₀ hmem hxl hlive)
      simp [removeFn, hnone]

/-- Claim C7 witness: deleting `f1` once succeeds; deleting it again returns
404 and changes nothing, and the live lookup after the first deletion already
misses. -/
theorem c7_delete_idempotent_witness :
    removeFn c7S "A" "f1" = (.ok { liveFn "f1" with deleted := true }, c7T) ∧
    removeFn c7T "A" "f1" = (.httpError 404 (.notFound "f1"), c7T) ∧
    findOne c7T "A" "f1" = none := by
  refine ⟨by decide, ?_, by decide⟩
  exact (c7_delete_idempotent c7S "A" "f1" (by decide)).2
    { liveFn "f1" with deleted := true } c7T (by decide)

/-- Claim C3, recorded against the code as it stands: compiling the deployed
function `f1` with the source `"syntax error"`, which the compiler front end
rejects, makes the controller answer with `ResponseUtil.ok` wrapping the
failed outcome — a success envelope around a compile failure — because the
source's compile handler wraps the service result in `ok` unconditionally,
with no failure branch.  The specified behaviour (an explicit `CompileError`
failure result) is never produced. -/
theorem c3_compile_failure_wrapped_in_ok :
    compileFn c3Check c3State "A" "f1" { code := some "syntax error" } =
      (.ok (.failed { reason := "SyntaxError", diagnostics := "Unexpected token" }),
       c3State) := by
  decide

/-- Claim C4: when the artifact compiler fails on the requested source, the
compile endpoint returns with the store exactly as it was — in particular
every function's `currentArtifact` (and version) is unchanged, so the
previously deployed artifact keeps serving. -/
theorem c4_failed_compile_preserves_state
    (codeCheck : String → Option String) (s : ServerState)
    (appid name : String) (dto : CompileFunctionDto)
    (func : CloudFunction) (e : CompileError)
    (hcode : isFalsyCode dto.code = false)
    (hfound : findOne s appid name = some func)
    (hfail : artifactCompile codeCheck func (dto.code.getD "") = .failed e) :
    (compileFn codeCheck s appid name dto).2 = s ∧
    ∀ g ∈ s.functions, g ∈ (compileFn codeCheck s appid name dto).2.functions := by
  have : compileFn codeCheck s appid name dto = (.ok (.failed e), s) := by
    simp [compileFn, hcode, hfound, serviceCompile, hfail]
  rw [this]
  exact ⟨rfl, fun g hg => hg⟩

/-- Claim C4 witness: the failing compile of `f1` in `c3State` leaves the
store — and so `f1`'s `currentArtifact = some 1` — untouched. -/
theorem c4_failed_compile_preserves_state_witness :
    (compileFn c3Check c3State "A" "f1" { code := some "syntax error" }).2 = c3State ∧
    ∀ g ∈ c3State.functions,
      g ∈ (compileFn c3Check c3State "A" "f1" { code := some "syntax error" }).2.functions :=
  c4_failed_compile_preserves_state c3Check c3State "A" "f1"
    { code := some "syntax error" }
    { appid := "A", name := "f1", code := "old", version := 1,
      currentArtifact := some 1, deleted := false }
    { reason := "SyntaxError", diagnostics := "Unexpected token" }
    (by decide) (by decide) (by decide)

/-- Faithfulness of the interleaving model: one call stepped through its two
phases back-to-back with no interference is exactly the atomic controller
`createFn`. -/
theorem stepCreate_uninterrupted (s : ServerState) (appid : String)
    (dto : CreateFunctionDto) :
    stepCreate appid dto (stepCreate appid dto s .init).2
        (stepCreate appid dto s .init).1 =
      (.finished (createFn s appid dto).1, (createFn s appid dto).2) := by
  cases hv : dto.validateErr with
  | some e => simp [stepCreate, createFn, hv]
  | none =>
    cases hf : findOne s appid dto.name with
    | some f => simp [stepCreate, createFn, hv, hf]
    | none =>
      by_cases h : maxFunctionCount (findApplicationBundle s appid) ≤ countApp s appid <;>
        simp [stepCreate, createFn, hv, hf, h]

/-- Claim C5, recorded against the code as it stands: the admission check and
the write it gates are separate steps with no shared transaction, so the
schedule in which two concurrent creates (limit 1, empty store) both perform
their count read before either writes admits both — after both commit, two
functions exist against a limit of one, over-admission the claim says cannot
be observed. -/
theorem c5_concurrent_creates_over_admit :
    c5Final.a = .finished (.ok (newFunction "A" (plainDto "f1"))) ∧
    c5Final.b = .finished (.ok (newFunction "A" (plainDto "f2"))) ∧
    maxFunctionCount (findApplicationBundle c5Final.store "A") = 1 ∧
    countApp c5Final.store "A" = 2 := by
  decide

/-- An artifact the compiler produces always carries the deterministic
content hash of its source. -/
theorem artifactCompile_hash (codeCheck : String → Option String)
    (func : CloudFunction) (source : String) (a : Artifact)
    (h : artifactCompile codeCheck func source = .made a) :
    a.hash = contentHash source := by
  simp only [artifactCompile] at h
  split at h
  · simp at h
  · split at h
    · simp at h
    · injection h with h2
      rw [← h2]

/-- Claim C8: compiling the same `(function, sourceCode)` pair twice — even
from different stores — yields the same artifact, whose content hash is the
deterministic hash of the source. -/
theorem c8_compile_deterministic (codeCheck : String → Option String)
    (s₁ s₂ : ServerState) (func : CloudFunction) (source : String)
    (a₁ a₂ : Artifact) (t₁ t₂ : ServerState)
    (h₁ : serviceCompile codeCheck s₁ func source = (.made a₁, t₁))
    (h₂ : serviceCompile codeCheck s₂ func source = (.made a₂, t₂)) :
    a₁ = a₂ ∧ a₁.hash = contentHash source := by
  simp only [serviceCompile] at h₁ h₂
  cases hc : artifactCompile codeCheck func source with
  | failed e => rw [hc] at h₁; simp at h₁
  | made a =>
    rw [hc] at h₁ h₂
    simp only [Prod.mk.injEq, CompileOut.made.injEq] at h₁ h₂
    obtain ⟨ha₁, -⟩ := h₁
    obtain ⟨ha₂, -⟩ := h₂
    subst ha₁; subst ha₂
    exact ⟨rfl, artifactCompile_hash codeCheck func source a hc⟩

/-- Claim C8 witness: compiling `"let x = 1"` for `f1` from two different
stores yields identical artifacts with the content hash of the source. -/
theorem c8_compile_deterministic_witness :
    c8Art = c8Art ∧ c8Art.hash = contentHash "let x = 1" :=
  c8_compile_deterministic okCheck c8S1 c8S2 c8Func "let x = 1" c8Art c8Art
    (setCurrentArtifact c8S1 c8Func c8Art)
    (setCurrentArtifact c8S2 c8Func c8Art)
    rfl rfl

/-- Claim C10: a compile request whose code body is absent or empty is
rejected with the code-required error before the function lookup, for every
store — in particular also when no function with that name exists, where the
response is still code-required, never 404. -/
theorem c10_code_required_before_lookup
    (codeCheck : String → Option String) (s : ServerState)
    (appid name : String) (dto : CompileFunctionDto)
    (hcode : dto.code = none ∨ dto.code = some "") :
    compileFn codeCheck s appid name dto = (.error .codeRequired, s) := by
  have hfalsy : isFalsyCode dto.code = true := by
    rcases hcode with h | h <;> simp [h, isFalsyCode]
  simp [compileFn, hfalsy]

/-- Claim C10 witness: with an empty store (so `findOne` misses) and an empty
code body, the response is code-required, not 404. -/
theorem c10_code_required_before_lookup_witness :
    compileFn okCheck { functions := [], bundles := [] } "A" "ghost"
        { code := some "" } =
      (.error .codeRequired, { functions := [], bundles := [] }) ∧
    findOne { functions := [], bundles := [] } "A" "ghost" = none :=
  ⟨c10_code_required_before_lookup okCheck { functions := [], bundles := [] }
      "A" "ghost" { code := some "" } (Or.inr rfl),
   rfl⟩

end Laf
